import Mathlib

/-!
# Verification of the VVISF-GL ISF document model (`ISFDoc`)

Shallow embedding of the ISF document model declared in
`src/VVISF/include/ISFDoc.hpp`.  The header declares the `ISFDoc` class
(its fields and the inline accessor bodies); the method bodies
(constructors, parser, source generator, expression evaluator) are not
part of the excerpt, so those operations are modelled from the spec
(each such definition carries a doc comment starting `Modelled from the
spec:`).  Inline accessors present in the header are translated
directly from their C++ bodies.

Conventions of the embedding:
* C++ `std::string *` fields that may be `nullptr` become `Option String`.
* `GLBufferRef` / `ISFScene *` are opaque handles, modelled as `Nat`
  identifiers wrapped in `Option` (absent = null).
* C++ `double` values in the dimension-expression evaluator become `Rat`.
* Mutating member functions become state-passing functions
  `ISFDoc → ... → (result × ISFDoc)` or `ISFDoc → ... → ISFDoc`.
* Fallible operations return `Option` / `Except ISFErr`.
-/

namespace VVISF

/-- The value types an ISF input attribute can have (`ISFValType` in the
real headers); the tags follow the ISF JSON `TYPE` strings. -/
inductive ISFValType where
  | event
  | boolT
  | long
  | floatT
  | point2D
  | color
  | cube
  | image
  | audio
  | audioFFT
  deriving DecidableEq, Repr

/-- File types of an ISF document (`ISFFileType` in the real headers):
generator source, filter, transition. -/
inductive ISFFileType where
  | source
  | filter
  | transition
  deriving DecidableEq, Repr

/-- One declared input or import (`ISFAttr`): name, kind, label,
description (repurposed as the import path for image imports), the
current numeric value (used by the dimension-expression substitution
map) and the current image buffer handle (for image-like inputs). -/
structure ISFAttr where
  name : String
  description : String
  label : String
  type : ISFValType
  currentVal : Rat
  currentImageBuffer : Option Nat
  deriving DecidableEq, Repr

/-- One render-pass output description (`ISFPassTarget`): target name,
optional width/height expression strings, float-precision flag,
persistent flag, the per-frame resolved dimensions, and the buffer
handle currently associated with the pass. -/
structure ISFPassTarget where
  name : String
  widthExpression : Option String
  heightExpression : Option String
  persistentFlag : Bool
  floatFlag : Bool
  width : Rat
  height : Rat
  buffer : Option Nat
  deriving DecidableEq, Repr

/-- A render size (`VVGL::Size`): width and height. -/
structure Size where
  width : Rat
  height : Rat
  deriving DecidableEq, Repr

/-- The errors an `ISFDoc` constructor can signal (`ISFErr`): an I/O
failure loading the file, or a failure parsing the JSON blob. -/
inductive ISFErr where
  | loadErr (desc : String)
  | jsonErr (desc : String)
  deriving DecidableEq, Repr

/-- The `ISFDoc` data model, translated field-by-field from the private
section of `src/VVISF/include/ISFDoc.hpp` (lines 36-62).  Nullable
`std::string *` members become `Option String`; the weak
`ISFScene *_parentScene` back reference becomes an opaque optional
handle. -/
structure ISFDoc where
  _path : Option String
  _name : Option String
  _description : Option String
  _credit : Option String
  _vsn : Option String
  _type : ISFFileType
  _throwExcept : Bool
  _categories : List String
  _inputs : List ISFAttr
  _imageInputs : List ISFAttr
  _audioInputs : List ISFAttr
  _imageImports : List ISFAttr
  _persistentPassTargets : List ISFPassTarget
  _tempPassTargets : List ISFPassTarget
  _renderPasses : List String
  _jsonSourceString : Option String
  _jsonString : Option String
  _vertShaderSource : Option String
  _fragShaderSource : Option String
  _parentScene : Option Nat
  deriving DecidableEq, Repr

/-- `ISFDoc::path()`, from the header:
`return (_path==nullptr) ? std::string("") : std::string(*_path);` -/
def ISFDoc.path (d : ISFDoc) : String :=
  match d._path with
  | none => ""
  | some p => p

/-- `ISFDoc::name()`, from the header:
`return (_name==nullptr) ? std::string("") : std::string(*_name);` -/
def ISFDoc.name (d : ISFDoc) : String :=
  match d._name with
  | none => ""
  | some n => n

/-- `ISFDoc::description()`, from the header:
`return (_description==nullptr) ? std::string("") : std::string(*_description);` -/
def ISFDoc.description (d : ISFDoc) : String :=
  match d._description with
  | none => ""
  | some s => s

/-- `ISFDoc::credit()`, from the header:
`return (_credit==nullptr) ? std::string("") : std::string(*_credit);` -/
def ISFDoc.credit (d : ISFDoc) : String :=
  match d._credit with
  | none => ""
  | some s => s

/-- `ISFDoc::vsn()`, from the header:
`return (_vsn==nullptr) ? std::string("") : std::string(*_vsn);` -/
def ISFDoc.vsn (d : ISFDoc) : String :=
  match d._vsn with
  | none => ""
  | some s => s

/-- `ISFDoc::type()`, from the header: `return _type;` -/
def ISFDoc.type (d : ISFDoc) : ISFFileType := d._type

/-- `ISFDoc::categories()`, from the header: returns `_categories`. -/
def ISFDoc.categories (d : ISFDoc) : List String := d._categories

/-- `ISFDoc::inputs()`, from the header: returns `_inputs`. -/
def ISFDoc.inputs (d : ISFDoc) : List ISFAttr := d._inputs

/-- `ISFDoc::imageInputs()`, from the header: returns `_imageInputs`. -/
def ISFDoc.imageInputs (d : ISFDoc) : List ISFAttr := d._imageInputs

/-- `ISFDoc::audioInputs()`, from the header: returns `_audioInputs`. -/
def ISFDoc.audioInputs (d : ISFDoc) : List ISFAttr := d._audioInputs

/-- `ISFDoc::imageImports()`, from the header: returns `_imageImports`. -/
def ISFDoc.imageImports (d : ISFDoc) : List ISFAttr := d._imageImports

/-- `ISFDoc::persistentPassTargets()`, from the header: returns
`_persistentPassTargets`. -/
def ISFDoc.persistentPassTargets (d : ISFDoc) : List ISFPassTarget :=
  d._persistentPassTargets

/-- `ISFDoc::tempPassTargets()`, from the header: returns
`_tempPassTargets`. -/
def ISFDoc.tempPassTargets (d : ISFDoc) : List ISFPassTarget :=
  d._tempPassTargets

/-- `ISFDoc::renderPasses()`, from the header: returns `_renderPasses`. -/
def ISFDoc.renderPasses (d : ISFDoc) : List String := d._renderPasses

/-- `ISFDoc::jsonSourceString()`, from the header: returns the
`_jsonSourceString` pointer (possibly null). -/
def ISFDoc.jsonSourceString (d : ISFDoc) : Option String := d._jsonSourceString

/-- `ISFDoc::jsonString()`, from the header: returns the `_jsonString`
pointer (possibly null). -/
def ISFDoc.jsonString (d : ISFDoc) : Option String := d._jsonString

/-- `ISFDoc::vertShaderSource()`, from the header: returns the
`_vertShaderSource` pointer (possibly null). -/
def ISFDoc.vertShaderSource (d : ISFDoc) : Option String := d._vertShaderSource

/-- `ISFDoc::fragShaderSource()`, from the header: returns the
`_fragShaderSource` pointer (possibly null). -/
def ISFDoc.fragShaderSource (d : ISFDoc) : Option String := d._fragShaderSource

/-- `ISFDoc::setParentScene()`, from the header: `_parentScene=n;`,
modelled as state passing. -/
def ISFDoc.setParentScene (d : ISFDoc) (n : Option Nat) : ISFDoc :=
  { d with _parentScene := n }

/-- `ISFDoc::parentScene()`, from the header: returns `_parentScene`. -/
def ISFDoc.parentScene (d : ISFDoc) : Option Nat := d._parentScene

/-! ## Dimension-expression evaluator

Modelled from the spec: the bodies of the expression evaluator used by
`evalBufferDimensionsWithRenderSize` / `_assembleSubstitutionMap`
(declared at `ISFDoc.hpp` lines 200 and 210) are not in the excerpt.
Per spec §4.3 the evaluator supports `+`, `-`, `*`, `/`, parentheses,
named-variable substitution and numeric literals; names absent from the
substitution map evaluate to zero. -/

/-- Tokens of a dimension-expression string. -/
inductive ExprTok where
  | num (v : Rat)
  | ident (s : String)
  | plus
  | minus
  | star
  | slash
  | lparen
  | rparen
  deriving DecidableEq, Repr

/-- Character class for the tail of an expression variable name. -/
def isIdentChar (c : Char) : Bool :=
  c.isAlpha || c.isDigit || c = '_'

/-- Numeric value of a digit run. -/
def natOfDigits (cs : List Char) : Nat :=
  cs.foldl (fun n c => n * 10 + (c.toNat - 48)) 0

/-- Modelled from the spec: tokenizer for dimension-expression strings
(numeric literals, `$`-prefixed or bare variable names, the four
arithmetic operators, parentheses, whitespace).  Fuel-indexed; fuel
equal to the character count always suffices. -/
def lexTokens : Nat → List Char → Option (List ExprTok)
  | 0, [] => some []
  | 0, _ :: _ => none
  | _ + 1, [] => some []
  | fuel + 1, c :: cs =>
    if c = ' ' || c = '\t' then lexTokens fuel cs
    else if c = '+' then (lexTokens fuel cs).map (ExprTok.plus :: ·)
    else if c = '-' then (lexTokens fuel cs).map (ExprTok.minus :: ·)
    else if c = '*' then (lexTokens fuel cs).map (ExprTok.star :: ·)
    else if c = '/' then (lexTokens fuel cs).map (ExprTok.slash :: ·)
    else if c = '(' then (lexTokens fuel cs).map (ExprTok.lparen :: ·)
    else if c = ')' then (lexTokens fuel cs).map (ExprTok.rparen :: ·)
    else if c.isDigit then
      let ds := (c :: cs).takeWhile Char.isDigit
      let rest := (c :: cs).dropWhile Char.isDigit
      (lexTokens fuel rest).map (ExprTok.num (natOfDigits ds) :: ·)
    else if c = '$' then
      let nm := cs.takeWhile isIdentChar
      let rest := cs.dropWhile isIdentChar
      (lexTokens fuel rest).map (ExprTok.ident (String.mk nm) :: ·)
    else if c.isAlpha || c = '_' then
      let nm := (c :: cs).takeWhile isIdentChar
      let rest := (c :: cs).dropWhile isIdentChar
      (lexTokens fuel rest).map (ExprTok.ident (String.mk nm) :: ·)
    else none

/-- Tokenize a dimension-expression string. -/
def tokenizeExpr (s : String) : Option (List ExprTok) :=
  lexTokens s.data.length s.data

/-- Abstract syntax of a parsed dimension expression. -/
inductive DimExpr where
  | num (v : Rat)
  | var (name : String)
  | add (a b : DimExpr)
  | sub (a b : DimExpr)
  | mul (a b : DimExpr)
  | div (a b : DimExpr)
  deriving DecidableEq, Repr

/-- The substitution map: association list from variable name to value. -/
def SubMap := List (String × Rat)

/-- Look a variable name up in the substitution map; names absent from
the map evaluate to zero (spec §4.3, permissive behavior). -/
def lookupSub (m : SubMap) (k : String) : Rat :=
  match List.find? (fun p => p.1 == k) m with
  | some p => p.2
  | none => 0

/-- Total evaluation of a parsed dimension expression against a
substitution map.  Never fails: unknown variables read as zero. -/
def DimExpr.eval (m : SubMap) : DimExpr → Rat
  | .num v => v
  | .var n => lookupSub m n
  | .add a b => a.eval m + b.eval m
  | .sub a b => a.eval m - b.eval m
  | .mul a b => a.eval m * b.eval m
  | .div a b => a.eval m / b.eval m

/-- One left-associative binary-operator chain: starting from `acc`,
repeatedly consume an operator recognized by `ops` and a following
operand parsed by `sub`. -/
def parseChain (sub : List ExprTok → Option (DimExpr × List ExprTok))
    (ops : ExprTok → Option (DimExpr → DimExpr → DimExpr)) :
    Nat → DimExpr → List ExprTok → Option (DimExpr × List ExprTok)
  | 0, acc, ts => some (acc, ts)
  | _ + 1, acc, [] => some (acc, [])
  | fuel + 1, acc, t :: rest =>
    match ops t with
    | none => some (acc, t :: rest)
    | some mk =>
      match sub rest with
      | none => none
      | some (rhs, rest2) => parseChain sub ops fuel (mk acc rhs) rest2

/-- Recognize additive operators. -/
def sumOps : ExprTok → Option (DimExpr → DimExpr → DimExpr)
  | .plus => some DimExpr.add
  | .minus => some DimExpr.sub
  | _ => none

/-- Recognize multiplicative operators. -/
def termOps : ExprTok → Option (DimExpr → DimExpr → DimExpr)
  | .star => some DimExpr.mul
  | .slash => some DimExpr.div
  | _ => none

/-- Modelled from the spec: recursive-descent parser for the expression
grammar of §4.3 (sums of products of atoms; atoms are numeric literals,
variable names, parenthesized expressions, or a unary minus).  The
outer fuel bounds parenthesis nesting. -/
def parseSum : Nat → List ExprTok → Option (DimExpr × List ExprTok)
  | 0, _ => none
  | fuel + 1, ts =>
    let parseAtom : List ExprTok → Option (DimExpr × List ExprTok) := fun us =>
      match us with
      | ExprTok.num v :: rest => some (DimExpr.num v, rest)
      | ExprTok.ident n :: rest => some (DimExpr.var n, rest)
      | ExprTok.minus :: ExprTok.num v :: rest =>
        some (DimExpr.sub (DimExpr.num 0) (DimExpr.num v), rest)
      | ExprTok.minus :: ExprTok.ident n :: rest =>
        some (DimExpr.sub (DimExpr.num 0) (DimExpr.var n), rest)
      | ExprTok.lparen :: rest =>
        match parseSum fuel rest with
        | some (e, ExprTok.rparen :: rest2) => some (e, rest2)
        | _ => none
      | _ => none
    let parseTerm : List ExprTok → Option (DimExpr × List ExprTok) := fun us =>
      match parseAtom us with
      | none => none
      | some (e, rest) => parseChain parseAtom termOps rest.length e rest
    match parseTerm ts with
    | none => none
    | some (e, rest) => parseChain parseTerm sumOps rest.length e rest

/-- Parse a dimension-expression string to its AST; fails (returns
`none`) only on lexical or syntactic malformation, never because of the
names the expression mentions. -/
def parseDimExpr (s : String) : Option DimExpr :=
  match tokenizeExpr s with
  | none => none
  | some ts =>
    match parseSum (ts.length + 1) ts with
    | some (e, []) => some e
    | _ => none

/-- Modelled from the spec: evaluate one dimension-expression string
against a substitution map (§4.3).  `none` only for malformed
expressions. -/
def evalDimString (m : SubMap) (s : String) : Option Rat :=
  match parseDimExpr s with
  | none => none
  | some e => some (e.eval m)

/-- Character classes for scalar-typed inputs: the kinds whose current
numeric value enters the substitution map (spec §4.3: "the current
numeric value of every scalar-typed input"). -/
def isScalarValType : ISFValType → Bool
  | .event => true
  | .boolT => true
  | .long => true
  | .floatT => true
  | .point2D => false
  | .color => false
  | .cube => false
  | .image => false
  | .audio => false
  | .audioFFT => false

/-- Modelled from the spec: `ISFDoc::_assembleSubstitutionMap`
(declared at `ISFDoc.hpp` line 210; body not in the excerpt).  Builds
the map of named scalars used to evaluate dimension expressions: the
current render width and height, the elapsed time, and the current
numeric value of every scalar-typed input, by name (spec §4.3). -/
def ISFDoc.assembleSubstitutionMap (d : ISFDoc) (renderSize : Size)
    (time : Rat) : SubMap :=
  ("WIDTH", renderSize.width) :: ("HEIGHT", renderSize.height) ::
    ("TIME", time) ::
    (d._inputs.filter (fun a => isScalarValType a.type)).map
      (fun a => (a.name, a.currentVal))

/-- Modelled from the spec: per-target dimension resolution inside
`evalBufferDimensionsWithRenderSize` (spec §4.3): a target with no
expression defaults to the full render size; a malformed expression
falls back to the full render size (spec §7, evaluation failures
degrade gracefully); otherwise the expression value is stored. -/
def evalPassTargetDims (m : SubMap) (renderSize : Size)
    (t : ISFPassTarget) : ISFPassTarget :=
  let w :=
    match t.widthExpression with
    | none => renderSize.width
    | some s =>
      match evalDimString m s with
      | none => renderSize.width
      | some v => v
  let h :=
    match t.heightExpression with
    | none => renderSize.height
    | some s =>
      match evalDimString m s with
      | none => renderSize.height
      | some v => v
  { t with width := w, height := h }

/-- Modelled from the spec: `ISFDoc::evalBufferDimensionsWithRenderSize`
(declared at `ISFDoc.hpp` line 200; body not in the excerpt).  Builds
the substitution map and re-evaluates the resolved width/height of
every persistent and temporary pass target (spec §4.3); the rest of the
document is untouched. -/
def ISFDoc.evalBufferDimensionsWithRenderSize (d : ISFDoc) (inSize : Size)
    (time : Rat) : ISFDoc :=
  let m := d.assembleSubstitutionMap inSize time
  { d with
    _persistentPassTargets :=
      d._persistentPassTargets.map (evalPassTargetDims m inSize)
    _tempPassTargets :=
      d._tempPassTargets.map (evalPassTargetDims m inSize) }

/-! ## JSON model and document construction

Modelled from the spec: the constructor bodies
(`ISFDoc::ISFDoc(inPath, inParentScene, inThrowExcept)`,
`ISFDoc::ISFDoc(inFSContents, inVSContents, importsDir, ...)` and
`ISFDoc::_initWithRawFragShaderString`, declared at `ISFDoc.hpp`
lines 78, 89 and 206) are not in the excerpt.  Per spec §4.1 the
constructor extracts the JSON metadata block from the fragment source
by balanced-brace scanning, decodes it, and populates the document. -/

/-- A decoded JSON value. -/
inductive JVal where
  | null
  | boolV (b : Bool)
  | num (v : Rat)
  | str (s : String)
  | arr (xs : List JVal)
  | obj (fields : List (String × JVal))
  deriving Repr

/-- JSON whitespace skipping. -/
def skipWs (cs : List Char) : List Char :=
  cs.dropWhile (fun c => c = ' ' || c = '\n' || c = '\t' || c = '\r')

/-- Parse the body of a JSON string after the opening quote; returns
the content characters and the remainder after the closing quote.
Escapes are simplified to "take the next character literally". -/
def parseJStringBody : Nat → List Char → Option (List Char × List Char)
  | 0, _ => none
  | _ + 1, [] => none
  | fuel + 1, c :: cs =>
    if c = '"' then some ([], cs)
    else if c = '\\' then
      match cs with
      | [] => none
      | e :: cs2 =>
        (parseJStringBody fuel cs2).map (fun p => (e :: p.1, p.2))
    else (parseJStringBody fuel cs).map (fun p => (c :: p.1, p.2))

/-- Parse a JSON number (optional minus, digit run, optional fraction). -/
def parseJNum (cs : List Char) : Option (JVal × List Char) :=
  let p := match cs with
    | '-' :: r => (true, r)
    | _ => (false, cs)
  match p.2.takeWhile Char.isDigit, p.2.dropWhile Char.isDigit with
  | [], _ => none
  | ds, rest =>
    let intPart : Rat := natOfDigits ds
    match rest with
    | '.' :: r2 =>
      match r2.takeWhile Char.isDigit, r2.dropWhile Char.isDigit with
      | [], _ => none
      | fs, r3 =>
        let v := intPart + (natOfDigits fs : Rat) / ((10 : Rat) ^ fs.length)
        some (JVal.num (if p.1 then -v else v), r3)
    | _ => some (JVal.num (if p.1 then -intPart else intPart), rest)

mutual

/-- Fuel-indexed JSON value parser. -/
def parseJVal : Nat → List Char → Option (JVal × List Char)
  | 0, _ => none
  | fuel + 1, cs =>
    match skipWs cs with
    | [] => none
    | c :: rest =>
      if c = '"' then
        (parseJStringBody rest.length rest).map
          (fun p => (JVal.str (String.mk p.1), p.2))
      else if c = '[' then
        match skipWs rest with
        | ']' :: r2 => some (JVal.arr [], r2)
        | r2 => (parseJArrItems fuel r2).map (fun p => (JVal.arr p.1, p.2))
      else if c = '{' then
        match skipWs rest with
        | '}' :: r2 => some (JVal.obj [], r2)
        | r2 => (parseJObjItems fuel r2).map (fun p => (JVal.obj p.1, p.2))
      else if c = 't' then
        match rest with
        | 'r' :: 'u' :: 'e' :: r => some (JVal.boolV true, r)
        | _ => none
      else if c = 'f' then
        match rest with
        | 'a' :: 'l' :: 's' :: 'e' :: r => some (JVal.boolV false, r)
        | _ => none
      else if c = 'n' then
        match rest with
        | 'u' :: 'l' :: 'l' :: r => some (JVal.null, r)
        | _ => none
      else if c.isDigit || c = '-' then parseJNum (c :: rest)
      else none

/-- Items of a nonempty JSON array, after the opening bracket. -/
def parseJArrItems : Nat → List Char → Option (List JVal × List Char)
  | 0, _ => none
  | fuel + 1, cs =>
    match parseJVal fuel cs with
    | none => none
    | some (v, rest) =>
      match skipWs rest with
      | ',' :: r2 => (parseJArrItems fuel r2).map (fun p => (v :: p.1, p.2))
      | ']' :: r2 => some ([v], r2)
      | _ => none

/-- Members of a nonempty JSON object, after the opening brace. -/
def parseJObjItems : Nat → List Char → Option (List (String × JVal) × List Char)
  | 0, _ => none
  | fuel + 1, cs =>
    match skipWs cs with
    | '"' :: rest =>
      match parseJStringBody rest.length rest with
      | none => none
      | some (key, r1) =>
        match skipWs r1 with
        | ':' :: r2 =>
          match parseJVal fuel r2 with
          | none => none
          | some (v, r3) =>
            match skipWs r3 with
            | ',' :: r4 =>
              (parseJObjItems fuel r4).map
                (fun p => ((String.mk key, v) :: p.1, p.2))
            | '}' :: r4 => some ([(String.mk key, v)], r4)
            | _ => none
        | _ => none
    | _ => none

end

/-- Parse a complete JSON document from a string. -/
def jsonParse (s : String) : Option JVal :=
  match parseJVal (s.data.length + 1) s.data with
  | some (v, rest) => if (skipWs rest).isEmpty then some v else none
  | none => none

/-- Balanced-brace scan: starting at an opening brace, accumulate
characters until the matching closing brace (spec §9: the metadata
block is located by balanced-brace extraction). -/
def scanBalanced : Nat → Nat → List Char → List Char →
    Option (List Char × List Char)
  | 0, _, _, _ => none
  | _ + 1, _, _, [] => none
  | fuel + 1, depth, acc, c :: cs =>
    if c = '{' then scanBalanced fuel (depth + 1) (c :: acc) cs
    else if c = '}' then
      if depth = 1 then some ((c :: acc).reverse, cs)
      else scanBalanced fuel (depth - 1) (c :: acc) cs
    else scanBalanced fuel depth (c :: acc) cs

/-- Modelled from the spec: locate the JSON metadata block in the raw
fragment-shader text (spec §4.1): the first balanced `\x7b ... \x7d`
region; tolerating a comment wrapper falls out of scanning for the
first opening brace.  `none` when the text has no such region (e.g. a
truncated object). -/
def extractJSONBlob (frag : String) : Option String :=
  match frag.data.dropWhile (fun c => c ≠ '{') with
  | [] => none
  | t => (scanBalanced t.length 0 [] t).map (fun p => String.mk p.1)

/-- Field lookup in a decoded JSON object. -/
def jLookup (fields : List (String × JVal)) (k : String) : Option JVal :=
  (fields.find? (fun p => p.1 == k)).map (fun p => p.2)

/-- Read an optional JSON string value. -/
def jString? : Option JVal → Option String
  | some (JVal.str s) => some s
  | _ => none

/-- Read a JSON flag: true for the boolean `true` or any nonzero
number, false otherwise (ISF files use both spellings). -/
def jTruthy : Option JVal → Bool
  | some (JVal.boolV b) => b
  | some (JVal.num v) => decide (v ≠ 0)
  | _ => false

/-- Read a JSON array's elements (empty for anything else). -/
def jElems : Option JVal → List JVal
  | some (JVal.arr xs) => xs
  | _ => []

/-- Read an optional JSON number. -/
def jNum? : Option JVal → Option Rat
  | some (JVal.num v) => some v
  | _ => none

/-- The ISF `TYPE` strings and the value type each denotes
(spec §3, Attribute kinds). -/
def valTypeForString : String → Option ISFValType
  | "event" => some .event
  | "bool" => some .boolT
  | "long" => some .long
  | "float" => some .floatT
  | "point2D" => some .point2D
  | "color" => some .color
  | "cube" => some .cube
  | "image" => some .image
  | "audio" => some .audio
  | "audioFFT" => some .audioFFT
  | _ => none

/-- Whether an attribute of this value type is listed among the image
inputs (`_imageInputs`; spec §4.1, classification). -/
def isImageInputType : ISFValType → Bool
  | .image => true
  | .cube => true
  | _ => false

/-- Whether an attribute of this value type is listed among the audio
inputs (`_audioInputs`; spec §4.1, classification). -/
def isAudioInputType : ISFValType → Bool
  | .audio => true
  | .audioFFT => true
  | _ => false

/-- Modelled from the spec: decode one entry of the `INPUTS` array into
an `ISFAttr` (spec §4.1): an object carrying `NAME` and `TYPE` strings,
an optional `LABEL`, and an optional numeric `DEFAULT` seeding the
current value.  Entries without a valid name/type are skipped
(best-effort population). -/
def buildInput : JVal → Option ISFAttr
  | JVal.obj fields =>
    match jString? (jLookup fields "NAME"), jString? (jLookup fields "TYPE") with
    | some nm, some tyStr =>
      match valTypeForString tyStr with
      | some ty =>
        some { name := nm
               description := ""
               label := (jString? (jLookup fields "LABEL")).getD ""
               type := ty
               currentVal := (jNum? (jLookup fields "DEFAULT")).getD 0
               currentImageBuffer := none }
      | none => none
    | _, _ => none
  | _ => none

/-- Modelled from the spec: decode the `IMPORTED` object (spec §4.1):
each member maps a sampler name to a file path, resolved against the
supplied imports directory; the resulting attribute's description field
is repurposed to hold the resolved path (header comment on
`_imageImports`). -/
def buildImports (importsDir : String) : Option JVal → List ISFAttr
  | some (JVal.obj fields) =>
    fields.filterMap (fun p =>
      match p.2 with
      | JVal.str pathStr =>
        some { name := p.1
               description := importsDir ++ pathStr
               label := ""
               type := .image
               currentVal := 0
               currentImageBuffer := none }
      | _ => none)
  | _ => []

/-- Accumulator for the pass partition: persistent targets, temporary
targets, and the ordered render-pass names. -/
structure PassAcc where
  pers : List ISFPassTarget
  temp : List ISFPassTarget
  names : List String
  deriving DecidableEq, Repr

/-- Modelled from the spec: decode one entry of the `PASSES` array
(spec §4.1): `TARGET` names the pass, optional `WIDTH`/`HEIGHT` carry
dimension-expression strings, `PERSISTENT` and `FLOAT` are flags.
Resolved dimensions start at zero and are overwritten by
`evalBufferDimensionsWithRenderSize` before rendering. -/
def mkPassTarget (fields : List (String × JVal)) : ISFPassTarget :=
  { name := (jString? (jLookup fields "TARGET")).getD ""
    widthExpression := jString? (jLookup fields "WIDTH")
    heightExpression := jString? (jLookup fields "HEIGHT")
    persistentFlag := jTruthy (jLookup fields "PERSISTENT")
    floatFlag := jTruthy (jLookup fields "FLOAT")
    width := 0
    height := 0
    buffer := none }

/-- Modelled from the spec: fold step of the pass partition (spec
§4.1): each pass object becomes a Pass Target, appended to the
persistent collection if its persistent flag is set and to the
temporary collection otherwise, and its target name is appended to the
ordered render-pass-name sequence.  A pass whose target name repeats an
earlier one is skipped, keeping target names unique within the
Document (spec §3, Pass Target: "Target name (unique within the
Document)"). -/
def passStep (acc : PassAcc) : JVal → PassAcc
  | JVal.obj fields =>
    let t := mkPassTarget fields
    if t.name ∈ acc.names then acc
    else if t.persistentFlag then
      { acc with pers := acc.pers ++ [t], names := acc.names ++ [t.name] }
    else
      { acc with temp := acc.temp ++ [t], names := acc.names ++ [t.name] }
  | _ => acc

/-- Partition the decoded `PASSES` array. -/
def buildPasses (js : List JVal) : PassAcc :=
  js.foldl passStep ⟨[], [], []⟩

/-- The passthrough vertex shader the header mentions
(`ISFVertPassthru_GL2`), assumed when no vertex source is supplied. -/
def ISFVertPassthru_GL2 : String :=
  "void main(void)\x7b isf_vertShaderInit(); \x7d"

/-- A best-effort partially populated document: raw sources retained,
collections empty (spec §4.1 failure policy, permissive mode). -/
def partialDoc (path nm : Option String) (vertSrc : Option String)
    (parentScene : Option Nat) (throwExcept : Bool) (fragSrc : String)
    (srcSlice : Option String) : ISFDoc :=
  { _path := path
    _name := nm
    _description := none
    _credit := none
    _vsn := none
    _type := .source
    _throwExcept := throwExcept
    _categories := []
    _inputs := []
    _imageInputs := []
    _audioInputs := []
    _imageImports := []
    _persistentPassTargets := []
    _tempPassTargets := []
    _renderPasses := []
    _jsonSourceString := srcSlice
    _jsonString := srcSlice
    _vertShaderSource := vertSrc
    _fragShaderSource := some fragSrc
    _parentScene := parentScene }

/-- Modelled from the spec: populate a document from the decoded JSON
object (spec §4.1): `DESCRIPTION`, `CREDIT`, `VSN` and `CATEGORIES`
fill the identity fields; each `INPUTS` entry joins the general inputs
sequence and, by kind, exactly one of the image/audio views; `IMPORTED`
fills the image imports; `PASSES` is partitioned into
persistent/temporary targets with the ordered pass-name list.  (The
file-type tag derivation is not claim-relevant and is left at its
default.) -/
def buildDocFromJSON (path nm : Option String) (vertSrc : Option String)
    (importsDir : String) (parentScene : Option Nat) (throwExcept : Bool)
    (fragSrc : String) (srcSlice : String)
    (fields : List (String × JVal)) : ISFDoc :=
  let ins := (jElems (jLookup fields "INPUTS")).filterMap buildInput
  let passAcc := buildPasses (jElems (jLookup fields "PASSES"))
  { _path := path
    _name := nm
    _description := jString? (jLookup fields "DESCRIPTION")
    _credit := jString? (jLookup fields "CREDIT")
    _vsn := jString? (jLookup fields "VSN")
    _type := .source
    _throwExcept := throwExcept
    _categories := (jElems (jLookup fields "CATEGORIES")).filterMap
      (fun j => jString? (some j))
    _inputs := ins
    _imageInputs := ins.filter (fun a => isImageInputType a.type)
    _audioInputs := ins.filter (fun a => isAudioInputType a.type)
    _imageImports := buildImports importsDir (jLookup fields "IMPORTED")
    _persistentPassTargets := passAcc.pers
    _tempPassTargets := passAcc.temp
    _renderPasses := passAcc.names
    _jsonSourceString := some srcSlice
    _jsonString := some srcSlice
    _vertShaderSource := vertSrc
    _fragShaderSource := some fragSrc
    _parentScene := parentScene }

/-- Modelled from the spec: `ISFDoc::_initWithRawFragShaderString`
(declared at `ISFDoc.hpp` line 206; body not in the excerpt).  Locates
and decodes the JSON metadata block; on extraction or decoding failure
it signals a parse error when `inThrowExcept` is set and otherwise
yields the best-effort partially populated document (spec §4.1 failure
policy). -/
def _initWithRawFragShaderString (path nm : Option String)
    (vertSrc : Option String) (importsDir : String)
    (parentScene : Option Nat) (throwExcept : Bool)
    (fragSrc : String) : Except ISFErr ISFDoc :=
  match extractJSONBlob fragSrc with
  | none =>
    if throwExcept then
      Except.error (ISFErr.jsonErr "ERROR: json blob not found")
    else
      Except.ok (partialDoc path nm vertSrc parentScene throwExcept fragSrc none)
  | some slice =>
    match jsonParse slice with
    | some (JVal.obj fields) =>
      Except.ok (buildDocFromJSON path nm vertSrc importsDir parentScene
        throwExcept fragSrc slice fields)
    | _ =>
      if throwExcept then
        Except.error (ISFErr.jsonErr "ERROR: json blob failed to parse")
      else
        Except.ok (partialDoc path nm vertSrc parentScene throwExcept fragSrc
          (some slice))

/-- The file-name component of a path (last slash-separated segment). -/
def filenameFromPath (p : String) : String :=
  (p.splitOn "/").getLastD p

/-- Modelled from the spec: the file-path constructor
`ISFDoc::ISFDoc(inPath, inParentScene, inThrowExcept)` (declared at
`ISFDoc.hpp` line 78; body not in the excerpt).  `fileContents` is the
result of opening the file (`none` models an unopenable file).  An I/O
failure always signals an error, regardless of `inThrowExcept`, which
only governs parse-error strictness (spec §4.1). -/
def ISFDocFromPath (inPath : String) (fileContents : Option String)
    (inParentScene : Option Nat) (inThrowExcept : Bool) :
    Except ISFErr ISFDoc :=
  match fileContents with
  | none => Except.error (ISFErr.loadErr inPath)
  | some contents =>
    _initWithRawFragShaderString (some inPath)
      (some (filenameFromPath inPath)) (some ISFVertPassthru_GL2) "/"
      inParentScene inThrowExcept contents

/-- Modelled from the spec: the shader-string constructor
`ISFDoc::ISFDoc(inFSContents, inVSContents, importsDir, inParentScene,
inThrowExcept)` (declared at `ISFDoc.hpp` line 89; body not in the
excerpt).  No file is involved, so the path and name stay absent. -/
def ISFDocFromStrings (inFSContents inVSContents importsDir : String)
    (inParentScene : Option Nat) (inThrowExcept : Bool) :
    Except ISFErr ISFDoc :=
  _initWithRawFragShaderString none none (some inVSContents) importsDir
    inParentScene inThrowExcept inFSContents

/-! ## Source generator

Modelled from the spec: the bodies of `ISFDoc::generateShaderSource`
and `ISFDoc::_assembleShaderSource_VarDeclarations` (declared at
`ISFDoc.hpp` lines 198 and 208) are not in the excerpt.  Per spec §4.2
the generator declares a uniform per non-image input (or groups them
into one named uniform block when `inVarsAsUBO` is set), declares a
sampler uniform per image input/import, and splices the declarations
into the raw sources behind the version preamble. -/

/-- The sampler-type requirement reported by the hosting renderer
(spec §6: one of three tags — 2D, rectangle, cube). -/
inductive SamplerType where
  | two
  | rect
  | cube
  deriving DecidableEq, Repr

/-- The GLSL sampler type name for each renderer-reported sampler
requirement. -/
def SamplerType.glslName : SamplerType → String
  | .two => "sampler2D"
  | .rect => "sampler2DRect"
  | .cube => "samplerCube"

/-- The OpenGL versions the generator can target (`VVGL::GLVersion`). -/
inductive GLVersion where
  | GL2
  | GLES
  | GLES2
  | GLES3
  | GL3
  | GL4
  deriving DecidableEq, Repr

/-- Modelled from the spec: the version-dependent preamble (version
pragma, precision qualifiers) spliced ahead of the declarations
(spec §4.2 step 3). -/
def glslVersionPreamble : GLVersion → String
  | .GL2 => ""
  | .GLES => "precision mediump float;\nprecision mediump int;\n"
  | .GLES2 => "precision mediump float;\nprecision mediump int;\n"
  | .GLES3 => "#version 300 es\nprecision mediump float;\nprecision mediump int;\n"
  | .GL3 => "#version 330\n"
  | .GL4 => "#version 450\n"

/-- The GLSL type implied by a non-image input kind (spec §4.2 step 2:
float, vec2, vec4/color, int, bool); `none` for the image-like kinds,
which are declared as samplers instead. -/
def glslTypeForValType : ISFValType → Option String
  | .event => some "bool"
  | .boolT => some "bool"
  | .long => some "int"
  | .floatT => some "float"
  | .point2D => some "vec2"
  | .color => some "vec4"
  | .cube => none
  | .image => none
  | .audio => none
  | .audioFFT => none

/-- One generated variable declaration: an individual uniform
declaration, or a piece of the single named uniform block (opening
line, member line, closing line). -/
inductive VarDecl where
  | uniformDecl (glslType nm : String)
  | blockBegin (blockName : String)
  | blockMember (glslType nm : String)
  | blockEnd
  deriving DecidableEq, Repr

/-- Render one declaration as GLSL text. -/
def renderVarDecl : VarDecl → String
  | .uniformDecl ty nm => "uniform " ++ ty ++ " " ++ nm ++ ";\n"
  | .blockBegin b => "uniform " ++ b ++ " \x7b\n"
  | .blockMember ty nm => "\t" ++ ty ++ " " ++ nm ++ ";\n"
  | .blockEnd => "\x7d;\n"

/-- Modelled from the spec:
`ISFDoc::_assembleShaderSource_VarDeclarations` (declared at
`ISFDoc.hpp` line 208; body not in the excerpt).  For each non-image
input a uniform of the GLSL type implied by its kind; for each
image-like input and image import a sampler uniform of the
renderer-determined type.  When `inVarsAsUBO` is set the non-image
uniforms move into a single named uniform block while the samplers stay
individual declarations (spec §4.2 step 2). -/
def ISFDoc.varDeclsForDoc (d : ISFDoc) (st : SamplerType)
    (inVarsAsUBO : Bool) : List VarDecl :=
  let scalars := d._inputs.filter (fun a => (glslTypeForValType a.type).isSome)
  let samplerAttrs :=
    d._inputs.filter (fun a => (glslTypeForValType a.type).isNone) ++
      d._imageImports
  let samplerDecls :=
    samplerAttrs.map (fun a => VarDecl.uniformDecl st.glslName a.name)
  if inVarsAsUBO then
    VarDecl.blockBegin "VVISFUniforms" ::
      (scalars.map (fun a =>
        VarDecl.blockMember ((glslTypeForValType a.type).getD "float") a.name) ++
        ([VarDecl.blockEnd] ++ samplerDecls))
  else
    scalars.map (fun a =>
      VarDecl.uniformDecl ((glslTypeForValType a.type).getD "float") a.name) ++
      samplerDecls

/-- Modelled from the spec: `ISFDoc::generateShaderSource` (declared at
`ISFDoc.hpp` line 198; body not in the excerpt).  Fails when the
document has no fragment source (spec §4.2 failure); otherwise splices
the version preamble and the rendered declarations ahead of the raw
fragment and vertex sources (a passthrough vertex shader standing in
when none was supplied) and returns both generated strings. -/
def ISFDoc.generateShaderSource (d : ISFDoc) (inGLVers : GLVersion)
    (inVarsAsUBO : Bool) (st : SamplerType) : Option (String × String) :=
  match d._fragShaderSource with
  | none => none
  | some frag =>
    let decls :=
      String.join ((d.varDeclsForDoc st inVarsAsUBO).map renderVarDecl)
    let vert := d._vertShaderSource.getD ISFVertPassthru_GL2
    some (glslVersionPreamble inGLVers ++ decls ++ frag,
      glslVersionPreamble inGLVers ++ decls ++ vert)

/-- Modelled from the spec: generation as a state-passing call.  Spec
§4.2 step 4: the raw (pre-substitution) sources are never mutated, so
the document comes back unchanged. -/
def ISFDoc.generateShaderSourceSt (d : ISFDoc) (inGLVers : GLVersion)
    (inVarsAsUBO : Bool) (st : SamplerType) :
    Option (String × String) × ISFDoc :=
  (d.generateShaderSource inGLVers inVarsAsUBO st, d)

/-! ## Buffer lookup -/

/-- First attribute with the given name. -/
def findAttrNamed (xs : List ISFAttr) (n : String) : Option ISFAttr :=
  xs.find? (fun a => a.name == n)

/-- First pass target with the given name. -/
def findTargetNamed (xs : List ISFPassTarget) (n : String) :
    Option ISFPassTarget :=
  xs.find? (fun t => t.name == n)

/-- Modelled from the spec: `ISFDoc::getBufferForKey` (declared at
`ISFDoc.hpp` line 153; body not in the excerpt).  Searches the inputs,
then the persistent pass targets, then the temporary pass targets, in
that priority order, returning the first match's buffer and an absent
result when nothing matches (spec §4.4). -/
def ISFDoc.getBufferForKey (d : ISFDoc) (n : String) : Option Nat :=
  match findAttrNamed d._inputs n with
  | some a => a.currentImageBuffer
  | none =>
    match findTargetNamed d._persistentPassTargets n with
    | some t => t.buffer
    | none =>
      match findTargetNamed d._tempPassTargets n with
      | some t => t.buffer
      | none => none

/-- Modelled from the spec: the lookup as a state-passing call; spec
§4.4: it does not allocate or mutate, so the document comes back
unchanged. -/
def ISFDoc.getBufferForKeySt (d : ISFDoc) (n : String) :
    Option Nat × ISFDoc :=
  (d.getBufferForKey n, d)

/-! ## Support definitions for the verification -/

/-- Whether the fragment source carries decodable JSON metadata: the
balanced-brace extraction succeeds and the extracted slice decodes to a
JSON object.  `false` characterizes "malformed JSON metadata"
(spec §4.1 failure policy). -/
def metadataParses (fragSrc : String) : Bool :=
  match extractJSONBlob fragSrc with
  | none => false
  | some slice =>
    match jsonParse slice with
    | some (JVal.obj _) => true
    | _ => false

/-- Invariant of the pass partition accumulator: every recorded pass
name matches exactly one target across the two collections, and every
target's name is recorded. -/
def passInv (acc : PassAcc) : Prop :=
  (∀ n, n ∈ acc.names →
    acc.pers.countP (fun t => t.name == n) +
      acc.temp.countP (fun t => t.name == n) = 1) ∧
  (∀ t, t ∈ acc.pers → t.name ∈ acc.names) ∧
  (∀ t, t ∈ acc.temp → t.name ∈ acc.names)

/-- Project a successful construction result (a placeholder empty
document on the error side). -/
def docOrEmpty : Except ISFErr ISFDoc → ISFDoc
  | Except.ok d => d
  | Except.error _ => partialDoc none none none none true "" none

/-- The render size used by the dimension-evaluation scenario of
spec §8: 640 by 480. -/
def size640x480 : Size := { width := 640, height := 480 }

/-- A concrete float input used by the evaluation witnesses. -/
def brightnessAttr : ISFAttr :=
  { name := "brightness"
    description := ""
    label := ""
    type := .floatT
    currentVal := 1
    currentImageBuffer := none }

/-- A concrete image input used by the generation witnesses. -/
def imgAttr : ISFAttr :=
  { name := "inputImage"
    description := ""
    label := ""
    type := .image
    currentVal := 0
    currentImageBuffer := some 7 }

/-- A concrete image import used by the generation witnesses. -/
def importAttr : ISFAttr :=
  { name := "lookupTable"
    description := "/imports/lut.png"
    label := ""
    type := .image
    currentVal := 0
    currentImageBuffer := some 9 }

/-- A concrete persistent pass target whose width expression halves the
render width (the spec §8 scenario). -/
def halfWidthTarget : ISFPassTarget :=
  { name := "bufferA"
    widthExpression := some "$WIDTH/2"
    heightExpression := none
    persistentFlag := true
    floatFlag := false
    width := 0
    height := 0
    buffer := some 3 }

/-- A concrete temporary pass target with no dimension expressions. -/
def plainTarget : ISFPassTarget :=
  { name := "bufferB"
    widthExpression := none
    heightExpression := none
    persistentFlag := false
    floatFlag := false
    width := 0
    height := 0
    buffer := some 4 }

/-- A concrete document used by the witnesses: one float input, one
image input, one image import, one persistent and one temporary pass
target. -/
def demoDoc : ISFDoc :=
  { _path := none
    _name := none
    _description := some "demo"
    _credit := none
    _vsn := none
    _type := .source
    _throwExcept := true
    _categories := []
    _inputs := [brightnessAttr, imgAttr]
    _imageInputs := [imgAttr]
    _audioInputs := []
    _imageImports := [importAttr]
    _persistentPassTargets := [halfWidthTarget]
    _tempPassTargets := [plainTarget]
    _renderPasses := ["bufferA", "bufferB"]
    _jsonSourceString := some "\x7b\x7d"
    _jsonString := some "\x7b\x7d"
    _vertShaderSource := some "void main()\x7b\x7d"
    _fragShaderSource := some "void main()\x7b\x7d"
    _parentScene := none }

/-! ## Claims -/

/-- C10: for every Document in which a given identity field was never
populated, the corresponding accessor among path(), name(),
description(), credit() and vsn() returns the empty string rather than
failing or returning a null value. -/
theorem C10_absent_identity_fields_read_as_empty (d : ISFDoc) :
    (d._path = none → d.path = "") ∧
    (d._name = none → d.name = "") ∧
    (d._description = none → d.description = "") ∧
    (d._credit = none → d.credit = "") ∧
    (d._vsn = none → d.vsn = "") := by
  refine ⟨fun h => ?_, fun h => ?_, fun h => ?_, fun h => ?_, fun h => ?_⟩ <;>
    simp [ISFDoc.path, ISFDoc.name, ISFDoc.description, ISFDoc.credit,
      ISFDoc.vsn, h]

/-- Witness for C10 at a concrete document with no populated identity
fields. -/
theorem C10_witness :
    (partialDoc none none none none true "" none).path = "" ∧
    (partialDoc none none none none true "" none).name = "" ∧
    (partialDoc none none none none true "" none).description = "" ∧
    (partialDoc none none none none true "" none).credit = "" ∧
    (partialDoc none none none none true "" none).vsn = "" := by
  have h :=
    C10_absent_identity_fields_read_as_empty
      (partialDoc none none none none true "" none)
  exact ⟨h.1 rfl, h.2.1 rfl, h.2.2.1 rfl, h.2.2.2.1 rfl, h.2.2.2.2 rfl⟩

/-- C8: no call of generateShaderSource (any GL version, any
inVarsAsUBO flag, succeeding or failing) modifies the stored raw vertex
source, raw fragment source, raw JSON source string, or extracted JSON
string: the four accessors read identically before and after the
call. -/
theorem C8_generation_never_mutates_raw_sources (d : ISFDoc)
    (v : GLVersion) (ubo : Bool) (st : SamplerType) :
    (d.generateShaderSourceSt v ubo st).2.vertShaderSource =
        d.vertShaderSource ∧
    (d.generateShaderSourceSt v ubo st).2.fragShaderSource =
        d.fragShaderSource ∧
    (d.generateShaderSourceSt v ubo st).2.jsonSourceString =
        d.jsonSourceString ∧
    (d.generateShaderSourceSt v ubo st).2.jsonString = d.jsonString :=
  ⟨rfl, rfl, rfl, rfl⟩

/-- C3: generating shader source twice from the same Document with the
same target GL version, the same inVarsAsUBO flag and the same
renderer-reported sampler-type requirement yields byte-identical
fragment/vertex output on both calls (the second call runs on the
document state the first call left behind). -/
theorem C3_generation_deterministic (d : ISFDoc) (v : GLVersion)
    (ubo : Bool) (st : SamplerType) :
    ((d.generateShaderSourceSt v ubo st).2.generateShaderSourceSt
        v ubo st).1 =
      (d.generateShaderSourceSt v ubo st).1 := rfl

/-- C7: getBufferForKey searches the inputs, then the persistent pass
targets, then the temporary pass targets, in that priority order,
returns the first match's buffer, returns an absent result when no
collection matches, and leaves the document unchanged. -/
theorem C7_getBufferForKey_search_order (d : ISFDoc) (n : String) :
    (∀ a, findAttrNamed d._inputs n = some a →
      d.getBufferForKey n = a.currentImageBuffer) ∧
    (findAttrNamed d._inputs n = none →
      ∀ t, findTargetNamed d._persistentPassTargets n = some t →
        d.getBufferForKey n = t.buffer) ∧
    (findAttrNamed d._inputs n = none →
      findTargetNamed d._persistentPassTargets n = none →
        ∀ t, findTargetNamed d._tempPassTargets n = some t →
          d.getBufferForKey n = t.buffer) ∧
    (findAttrNamed d._inputs n = none →
      findTargetNamed d._persistentPassTargets n = none →
        findTargetNamed d._tempPassTargets n = none →
          d.getBufferForKey n = none) ∧
    (d.getBufferForKeySt n).2 = d := by
  refine ⟨?_, ?_, ?_, ?_, rfl⟩ <;> intros <;>
    simp_all [ISFDoc.getBufferForKey]

/-- Witness for C7 at the concrete demo document: a key matching an
input returns that input's buffer, and an unmatched key returns an
absent result. -/
theorem C7_witness :
    demoDoc.getBufferForKey "inputImage" = imgAttr.currentImageBuffer ∧
    demoDoc.getBufferForKey "nosuch" = none :=
  ⟨(C7_getBufferForKey_search_order demoDoc "inputImage").1 imgAttr rfl,
    (C7_getBufferForKey_search_order demoDoc "nosuch").2.2.2.1 rfl rfl rfl⟩

/-- C5: a variable name absent from the substitution map evaluates to
zero inside dimension expressions, and evaluation never signals an
error on account of an unknown name (whether evaluation succeeds does
not depend on the map at all). -/
theorem C5_unknown_variable_evaluates_to_zero (m : SubMap) (nm : String)
    (s : String)
    (habs : List.find? (fun p => p.1 == nm) m = none) :
    lookupSub m nm = 0 ∧
    DimExpr.eval m (DimExpr.var nm) = 0 ∧
    ((evalDimString m s).isSome ↔ (evalDimString [] s).isSome) := by
  refine ⟨?_, ?_, ?_⟩
  · simp [lookupSub, habs]
  · simp [DimExpr.eval, lookupSub, habs]
  · unfold evalDimString
    cases parseDimExpr s <;> simp

/-- Witness for C5 at a concrete map and expression that mention an
unbound variable name. -/
theorem C5_witness :
    lookupSub [("WIDTH", 640)] "FOO" = 0 ∧
    DimExpr.eval [("WIDTH", 640)] (DimExpr.var "FOO") = 0 ∧
    ((evalDimString [("WIDTH", 640)] "$FOO+10").isSome ↔
      (evalDimString [] "$FOO+10").isSome) :=
  C5_unknown_variable_evaluates_to_zero [("WIDTH", 640)] "FOO" "$FOO+10" rfl

/-- C2: the file-path constructor signals an I/O error for an
unopenable file regardless of inThrowExcept, whereas malformed JSON
metadata in a readable file signals a parse error exactly when
inThrowExcept is true and otherwise yields a best-effort partially
populated document with empty inputs(). -/
theorem C2_constructor_error_policy (inPath contents : String)
    (ps : Option Nat) (te : Bool)
    (hmal : metadataParses contents = false) :
    ISFDocFromPath inPath none ps te = Except.error (ISFErr.loadErr inPath) ∧
    (∃ msg, ISFDocFromPath inPath (some contents) ps true =
      Except.error (ISFErr.jsonErr msg)) ∧
    (∃ d, ISFDocFromPath inPath (some contents) ps false = Except.ok d ∧
      d.inputs = []) := by
  refine ⟨rfl, ?_, ?_⟩ <;>
  · cases hx : extractJSONBlob contents with
    | none =>
      simp [ISFDocFromPath, _initWithRawFragShaderString, hx, ISFDoc.inputs,
        partialDoc]
    | some slice =>
      cases hj : jsonParse slice with
      | none =>
        simp [ISFDocFromPath, _initWithRawFragShaderString, hx, hj,
          ISFDoc.inputs, partialDoc]
      | some v =>
        cases v <;>
          simp_all [metadataParses, ISFDocFromPath,
            _initWithRawFragShaderString, ISFDoc.inputs, partialDoc]

/-- Witness for C2 at a concrete truncated metadata object. -/
theorem C2_witness :
    metadataParses "\x7b \"INPUTS\": [" = false ∧
    ISFDocFromPath "/a/b.fs" none none false =
      Except.error (ISFErr.loadErr "/a/b.fs") ∧
    (∃ msg, ISFDocFromPath "/a/b.fs" (some "\x7b \"INPUTS\": [") none true =
      Except.error (ISFErr.jsonErr msg)) ∧
    (∃ d, ISFDocFromPath "/a/b.fs" (some "\x7b \"INPUTS\": [") none false =
      Except.ok d ∧ d.inputs = []) := by
  have h :=
    C2_constructor_error_policy "/a/b.fs" "\x7b \"INPUTS\": [" none false rfl
  exact ⟨rfl, h.1, h.2.1, h.2.2⟩

/-- The concrete parse of the spec §8 width expression, used by the C4
proof. -/
theorem parse_width_div2 :
    parseDimExpr "$WIDTH/2" =
      some (DimExpr.div (DimExpr.var "WIDTH") (DimExpr.num 2)) := by decide

/-- C4: with render size 640 by 480,
evalBufferDimensionsWithRenderSize stores a resolved width of 320 for a
pass target whose width expression is "$WIDTH/2" and the full render
width of 640 for a pass target with no width expression. -/
theorem C4_dimension_expression_evaluation (d : ISFDoc) (time : Rat)
    (t : ISFPassTarget) :
    (t ∈ d.tempPassTargets →
      evalPassTargetDims (d.assembleSubstitutionMap size640x480 time)
          size640x480 t ∈
        (d.evalBufferDimensionsWithRenderSize size640x480
          time).tempPassTargets) ∧
    (t ∈ d.persistentPassTargets →
      evalPassTargetDims (d.assembleSubstitutionMap size640x480 time)
          size640x480 t ∈
        (d.evalBufferDimensionsWithRenderSize size640x480
          time).persistentPassTargets) ∧
    (t.widthExpression = some "$WIDTH/2" →
      (evalPassTargetDims (d.assembleSubstitutionMap size640x480 time)
        size640x480 t).width = 320) ∧
    (t.widthExpression = none →
      (evalPassTargetDims (d.assembleSubstitutionMap size640x480 time)
        size640x480 t).width = 640) := by
  refine ⟨fun h => ?_, fun h => ?_, fun h => ?_, fun h => ?_⟩
  · simpa [ISFDoc.evalBufferDimensionsWithRenderSize, ISFDoc.tempPassTargets]
      using List.mem_map_of_mem
        (evalPassTargetDims (d.assembleSubstitutionMap size640x480 time)
          size640x480) h
  · simpa [ISFDoc.evalBufferDimensionsWithRenderSize,
      ISFDoc.persistentPassTargets]
      using List.mem_map_of_mem
        (evalPassTargetDims (d.assembleSubstitutionMap size640x480 time)
          size640x480) h
  · simp [evalPassTargetDims, h, evalDimString, parse_width_div2,
      DimExpr.eval, lookupSub, ISFDoc.assembleSubstitutionMap, List.find?,
      size640x480]
    norm_num
  · simp [evalPassTargetDims, h, size640x480]

/-- Witness for C4 at the concrete demo document and pass targets. -/
theorem C4_witness :
    (evalPassTargetDims (demoDoc.assembleSubstitutionMap size640x480 0)
      size640x480 halfWidthTarget).width = 320 ∧
    (evalPassTargetDims (demoDoc.assembleSubstitutionMap size640x480 0)
      size640x480 plainTarget).width = 640 :=
  ⟨(C4_dimension_expression_evaluation demoDoc 0 halfWidthTarget).2.2.1 rfl,
    (C4_dimension_expression_evaluation demoDoc 0 plainTarget).2.2.2 rfl⟩


/-- No value type is classed both an image input and an audio input. -/
theorem image_audio_kinds_disjoint (ty : ISFValType) :
    ¬(isImageInputType ty = true ∧ isAudioInputType ty = true) := by
  intro hpair
  cases ty <;> simp_all [isImageInputType, isAudioInputType]

/-- Every successfully constructed document's image/audio views are the
kind-filtered restrictions of its general input sequence. -/
theorem init_ok_input_views (path nm vertSrc : Option String)
    (importsDir : String) (ps : Option Nat) (te : Bool) (fragSrc : String)
    (d : ISFDoc)
    (h : _initWithRawFragShaderString path nm vertSrc importsDir ps te
      fragSrc = Except.ok d) :
    d._imageInputs = d._inputs.filter (fun a => isImageInputType a.type) ∧
    d._audioInputs = d._inputs.filter (fun a => isAudioInputType a.type) := by
  unfold _initWithRawFragShaderString at h
  split at h
  · split at h
    · exact Except.noConfusion h
    · injection h with h2
      subst h2
      simp [partialDoc]
  · split at h
    · injection h with h2
      subst h2
      exact ⟨rfl, rfl⟩
    · split at h
      · exact Except.noConfusion h
      · injection h with h2
        subst h2
        simp [partialDoc]

/-- C9: for every attribute parsed into a Document, kind determines
sub-collection membership at parse time and the classification never
changes afterwards: an image-kind input appears in imageInputs and
never in audioInputs, an audio-kind input appears in audioInputs and
never in imageInputs, each view holds only attributes of its kind, and
the modelled mutating operations preserve both views. -/
theorem C9_kind_classification_stable (path nm vertSrc : Option String)
    (importsDir : String) (ps : Option Nat) (te : Bool) (fragSrc : String)
    (d : ISFDoc)
    (h : _initWithRawFragShaderString path nm vertSrc importsDir ps te
      fragSrc = Except.ok d) :
    (∀ a ∈ d.inputs, isImageInputType a.type = true →
      a ∈ d.imageInputs ∧ a ∉ d.audioInputs) ∧
    (∀ a ∈ d.inputs, isAudioInputType a.type = true →
      a ∈ d.audioInputs ∧ a ∉ d.imageInputs) ∧
    (∀ a ∈ d.imageInputs, isImageInputType a.type = true ∧
      a ∉ d.audioInputs) ∧
    (∀ a ∈ d.audioInputs, isAudioInputType a.type = true ∧
      a ∉ d.imageInputs) ∧
    (∀ sz time,
      (d.evalBufferDimensionsWithRenderSize sz time).imageInputs =
          d.imageInputs ∧
      (d.evalBufferDimensionsWithRenderSize sz time).audioInputs =
          d.audioInputs) ∧
    (∀ n, (d.setParentScene n).imageInputs = d.imageInputs ∧
      (d.setParentScene n).audioInputs = d.audioInputs) ∧
    (∀ v ubo st,
      (d.generateShaderSourceSt v ubo st).2.imageInputs = d.imageInputs ∧
      (d.generateShaderSourceSt v ubo st).2.audioInputs = d.audioInputs) := by
  obtain ⟨him, hau⟩ := init_ok_input_views path nm vertSrc importsDir ps te
    fragSrc d h
  refine ⟨fun a ha hty => ?_, fun a ha hty => ?_, fun a ha => ?_,
    fun a ha => ?_,
    fun sz time => ⟨rfl, rfl⟩, fun n => ⟨rfl, rfl⟩,
    fun v ubo st => ⟨rfl, rfl⟩⟩
  · refine ⟨?_, fun hcon => ?_⟩
    · rw [ISFDoc.imageInputs, him]
      exact List.mem_filter.mpr ⟨ha, hty⟩
    · rw [ISFDoc.audioInputs, hau] at hcon
      exact image_audio_kinds_disjoint a.type
        ⟨hty, (List.mem_filter.mp hcon).2⟩
  · refine ⟨?_, fun hcon => ?_⟩
    · rw [ISFDoc.audioInputs, hau]
      exact List.mem_filter.mpr ⟨ha, hty⟩
    · rw [ISFDoc.imageInputs, him] at hcon
      exact image_audio_kinds_disjoint a.type
        ⟨(List.mem_filter.mp hcon).2, hty⟩
  · rw [ISFDoc.imageInputs, him] at ha
    obtain ⟨hmem, hty⟩ := List.mem_filter.mp ha
    refine ⟨hty, fun hcon => ?_⟩
    rw [ISFDoc.audioInputs, hau] at hcon
    obtain ⟨-, hty2⟩ := List.mem_filter.mp hcon
    exact image_audio_kinds_disjoint a.type ⟨hty, hty2⟩
  · rw [ISFDoc.audioInputs, hau] at ha
    obtain ⟨hmem, hty⟩ := List.mem_filter.mp ha
    refine ⟨hty, fun hcon => ?_⟩
    rw [ISFDoc.imageInputs, him] at hcon
    obtain ⟨-, hty2⟩ := List.mem_filter.mp hcon
    exact image_audio_kinds_disjoint a.type ⟨hty2, hty⟩

/-- Witness for C9 at a concrete construction: the parsed image-kind
input appears in the image view and not in the audio view. -/
theorem C9_witness :
    ISFAttr.mk "img" "" "" ISFValType.image 0 none ∈
      (docOrEmpty (ISFDocFromStrings
        "\x7b\"INPUTS\": [\x7b\"NAME\": \"img\", \"TYPE\": \"image\"\x7d, \x7b\"NAME\": \"mic\", \"TYPE\": \"audio\"\x7d]\x7d"
        "vs" "/" none true)).imageInputs ∧
    ISFAttr.mk "img" "" "" ISFValType.image 0 none ∉
      (docOrEmpty (ISFDocFromStrings
        "\x7b\"INPUTS\": [\x7b\"NAME\": \"img\", \"TYPE\": \"image\"\x7d, \x7b\"NAME\": \"mic\", \"TYPE\": \"audio\"\x7d]\x7d"
        "vs" "/" none true)).audioInputs :=
  (C9_kind_classification_stable none none (some "vs") "/" none true
    "\x7b\"INPUTS\": [\x7b\"NAME\": \"img\", \"TYPE\": \"image\"\x7d, \x7b\"NAME\": \"mic\", \"TYPE\": \"audio\"\x7d]\x7d"
    _ rfl).1
    (ISFAttr.mk "img" "" "" ISFValType.image 0 none) (by decide) (by decide)


/-- The pass-partition fold step preserves the partition invariant. -/
theorem passStep_preserves_inv (acc : PassAcc) (j : JVal) (h : passInv acc) :
    passInv (passStep acc j) := by
  obtain ⟨h1, h2, h3⟩ := h
  cases j with
  | null => exact ⟨h1, h2, h3⟩
  | boolV b => exact ⟨h1, h2, h3⟩
  | num v => exact ⟨h1, h2, h3⟩
  | str s => exact ⟨h1, h2, h3⟩
  | arr xs => exact ⟨h1, h2, h3⟩
  | obj fields =>
    simp only [passStep]
    split
    · exact ⟨h1, h2, h3⟩
    · next hnew =>
      have hcount0 : ∀ L : List ISFPassTarget,
          (∀ u, u ∈ L → u.name ∈ acc.names) →
          L.countP (fun u => u.name == (mkPassTarget fields).name) = 0 := by
        intro L hL
        refine List.countP_eq_zero.mpr (fun u hu => ?_)
        simp only [beq_iff_eq]
        intro he
        exact hnew (he ▸ hL u hu)
      split
      · refine ⟨?_, ?_, ?_⟩
        · intro n hn
          simp only [List.mem_append, List.mem_singleton] at hn
          rw [List.countP_append]
          rcases hn with hn | rfl
          · have hne : ((mkPassTarget fields).name == n) = false := by
              simp only [beq_eq_false_iff_ne]
              intro he
              exact hnew (he ▸ hn)
            have := h1 n hn
            simp [List.countP_cons, hne]
            omega
          · rw [hcount0 acc.pers h2, hcount0 acc.temp h3]
            simp [List.countP_cons]
        · intro u hu
          simp only [List.mem_append, List.mem_singleton] at hu ⊢
          rcases hu with hu | rfl
          · exact Or.inl (h2 u hu)
          · exact Or.inr rfl
        · intro u hu
          exact List.mem_append_left _ (h3 u hu)
      · refine ⟨?_, ?_, ?_⟩
        · intro n hn
          simp only [List.mem_append, List.mem_singleton] at hn
          rw [List.countP_append]
          rcases hn with hn | rfl
          · have hne : ((mkPassTarget fields).name == n) = false := by
              simp only [beq_eq_false_iff_ne]
              intro he
              exact hnew (he ▸ hn)
            have := h1 n hn
            simp [List.countP_cons, hne]
            omega
          · rw [hcount0 acc.pers h2, hcount0 acc.temp h3]
            simp [List.countP_cons]
        · intro u hu
          exact List.mem_append_left _ (h2 u hu)
        · intro u hu
          simp only [List.mem_append, List.mem_singleton] at hu ⊢
          rcases hu with hu | rfl
          · exact Or.inl (h3 u hu)
          · exact Or.inr rfl
      
/-- The pass partition built from any decoded `PASSES` array satisfies
the partition invariant. -/
theorem buildPasses_inv (js : List JVal) : passInv (buildPasses js) := by
  have hgen : ∀ acc, passInv acc → passInv (List.foldl passStep acc js) := by
    induction js with
    | nil => exact fun acc h => h
    | cons j rest ih =>
      exact fun acc h => ih (passStep acc j) (passStep_preserves_inv acc j h)
  exact hgen ⟨[], [], []⟩
    ⟨fun n hn => absurd hn (List.not_mem_nil n),
      fun t ht => absurd ht (List.not_mem_nil t),
      fun t ht => absurd ht (List.not_mem_nil t)⟩

/-- Every successfully constructed document satisfies the pass
partition invariant. -/
theorem init_ok_pass_inv (path nm vertSrc : Option String)
    (importsDir : String) (ps : Option Nat) (te : Bool) (fragSrc : String)
    (d : ISFDoc)
    (h : _initWithRawFragShaderString path nm vertSrc importsDir ps te
      fragSrc = Except.ok d) :
    passInv ⟨d._persistentPassTargets, d._tempPassTargets,
      d._renderPasses⟩ := by
  unfold _initWithRawFragShaderString at h
  split at h
  · split at h
    · exact Except.noConfusion h
    · injection h with h2
      subst h2
      exact ⟨fun n hn => absurd hn (List.not_mem_nil n),
        fun t ht => absurd ht (List.not_mem_nil t),
        fun t ht => absurd ht (List.not_mem_nil t)⟩
  · split at h
    · injection h with h2
      subst h2
      exact buildPasses_inv _
    · split at h
      · exact Except.noConfusion h
      · injection h with h2
        subst h2
        exact ⟨fun n hn => absurd hn (List.not_mem_nil n),
          fun t ht => absurd ht (List.not_mem_nil t),
          fun t ht => absurd ht (List.not_mem_nil t)⟩

/-- C1: in every successfully constructed Document, every pass name in
the ordered render-pass sequence has exactly one corresponding pass
target across the persistent and temporary collections, and a target
never appears in both collections. -/
theorem C1_pass_partition (path nm vertSrc : Option String)
    (importsDir : String) (ps : Option Nat) (te : Bool) (fragSrc : String)
    (d : ISFDoc)
    (h : _initWithRawFragShaderString path nm vertSrc importsDir ps te
      fragSrc = Except.ok d) :
    (∀ n ∈ d.renderPasses,
      d.persistentPassTargets.countP (fun t => t.name == n) +
        d.tempPassTargets.countP (fun t => t.name == n) = 1) ∧
    (∀ t ∈ d.persistentPassTargets,
      t.name ∈ d.renderPasses ∧ t ∉ d.tempPassTargets) ∧
    (∀ t ∈ d.tempPassTargets, t.name ∈ d.renderPasses) := by
  obtain ⟨h1, h2, h3⟩ := init_ok_pass_inv path nm vertSrc importsDir ps te
    fragSrc d h
  refine ⟨h1, fun t ht => ⟨h2 t ht, fun hcon => ?_⟩, h3⟩
  have hs := h1 t.name (h2 t ht)
  dsimp only at hs
  have hp : 0 < d._persistentPassTargets.countP (fun u => u.name == t.name) :=
    List.countP_pos_iff.mpr ⟨t, ht, by simp⟩
  have hq : 0 < d._tempPassTargets.countP (fun u => u.name == t.name) :=
    List.countP_pos_iff.mpr ⟨t, hcon, by simp⟩
  omega

theorem C1_witness :
    (docOrEmpty (ISFDocFromStrings
        "\x7b\"PASSES\": [\x7b\"TARGET\": \"bufferA\", \"PERSISTENT\": true\x7d, \x7b\"TARGET\": \"bufferB\"\x7d]\x7d"
        "vs" "/" none true)).persistentPassTargets.countP
          (fun t => t.name == "bufferA") +
      (docOrEmpty (ISFDocFromStrings
        "\x7b\"PASSES\": [\x7b\"TARGET\": \"bufferA\", \"PERSISTENT\": true\x7d, \x7b\"TARGET\": \"bufferB\"\x7d]\x7d"
        "vs" "/" none true)).tempPassTargets.countP
          (fun t => t.name == "bufferA") = 1 :=
  (C1_pass_partition none none (some "vs") "/" none true
    "\x7b\"PASSES\": [\x7b\"TARGET\": \"bufferA\", \"PERSISTENT\": true\x7d, \x7b\"TARGET\": \"bufferB\"\x7d]\x7d"
    _ rfl).1 "bufferA" (by decide)


/-- A non-image GLSL scalar type never coincides with a sampler type
name. -/
theorem glslType_ne_sampler (ty : ISFValType) (st : SamplerType) :
    glslTypeForValType ty ≠ some st.glslName := by
  cases ty <;> cases st <;> simp [glslTypeForValType, SamplerType.glslName]

/-- Shape of the declaration list generated with the uniform block
enabled: the block scaffolding and members, and individual sampler
uniforms - nothing else. -/
theorem varDecls_ubo_shape (d : ISFDoc) (st : SamplerType) (x : VarDecl)
    (hx : x ∈ d.varDeclsForDoc st true) :
    x = VarDecl.blockBegin "VVISFUniforms" ∨
    (∃ b : ISFAttr,
      x = VarDecl.blockMember ((glslTypeForValType b.type).getD "float")
        b.name) ∨
    x = VarDecl.blockEnd ∨
    (∃ b : ISFAttr, x = VarDecl.uniformDecl st.glslName b.name) := by
  simp only [ISFDoc.varDeclsForDoc, if_true, List.singleton_append,
    List.mem_cons, List.mem_append, List.mem_map] at hx
  rcases hx with rfl | (⟨b, hb, rfl⟩ | (rfl | ⟨b, hb, rfl⟩))
  · exact Or.inl rfl
  · exact Or.inr (Or.inl ⟨b, rfl⟩)
  · exact Or.inr (Or.inr (Or.inl rfl))
  · exact Or.inr (Or.inr (Or.inr ⟨b, rfl⟩))

/-- C6: with inVarsAsUBO set, the generated declarations contain no
individual uniform declaration for any non-image input (those become
members of the single named uniform block), while every image-like
input and every image import is still declared as an individual sampler
uniform; image-classified inputs have no scalar GLSL type, so the first
part applies to none of them. -/
theorem C6_uniform_block_packing (d : ISFDoc) (st : SamplerType) :
    (∀ a ∈ d.inputs, ∀ ty, glslTypeForValType a.type = some ty →
      VarDecl.uniformDecl ty a.name ∉ d.varDeclsForDoc st true ∧
      VarDecl.blockMember ty a.name ∈ d.varDeclsForDoc st true) ∧
    (∀ a ∈ d.inputs, glslTypeForValType a.type = none →
      VarDecl.uniformDecl st.glslName a.name ∈ d.varDeclsForDoc st true) ∧
    (∀ a ∈ d.imageImports,
      VarDecl.uniformDecl st.glslName a.name ∈ d.varDeclsForDoc st true) ∧
    (∀ ty : ISFValType, isImageInputType ty = true →
      glslTypeForValType ty = none) := by
  refine ⟨fun a ha ty hty => ⟨fun hmem => ?_, ?_⟩, fun a ha hty => ?_,
    fun a ha => ?_, fun ty hty => ?_⟩
  · rcases varDecls_ubo_shape d st _ hmem with hsh | (⟨b, hsh⟩ | (hsh | ⟨b, hsh⟩))
    · exact VarDecl.noConfusion hsh
    · exact VarDecl.noConfusion hsh
    · exact VarDecl.noConfusion hsh
    · have hti : ty = st.glslName :=
        ((VarDecl.uniformDecl.injEq _ _ _ _).mp hsh).1
      exact glslType_ne_sampler a.type st (hti ▸ hty)
  · have hmemf : a ∈ d._inputs.filter
        (fun b => (glslTypeForValType b.type).isSome) :=
      List.mem_filter.mpr ⟨ha, by simp [hty]⟩
    have hm := List.mem_map_of_mem
      (fun b : ISFAttr =>
        VarDecl.blockMember ((glslTypeForValType b.type).getD "float") b.name)
      hmemf
    dsimp only at hm
    rw [hty] at hm
    simp only [Option.getD_some] at hm
    simp only [ISFDoc.varDeclsForDoc, if_true]
    exact List.mem_cons_of_mem _ (List.mem_append_left _ hm)
  · have hmemf : a ∈ d._inputs.filter
        (fun b => (glslTypeForValType b.type).isNone) :=
      List.mem_filter.mpr ⟨ha, by simp [hty]⟩
    have hm := List.mem_map_of_mem
      (fun b : ISFAttr => VarDecl.uniformDecl st.glslName b.name)
      (List.mem_append_left d._imageImports hmemf)
    simp only [ISFDoc.varDeclsForDoc, if_true]
    exact List.mem_cons_of_mem _
      (List.mem_append_right _ (List.mem_append_right _ hm))
  · have hm := List.mem_map_of_mem
      (fun b : ISFAttr => VarDecl.uniformDecl st.glslName b.name)
      (List.mem_append_right
        (d._inputs.filter (fun b => (glslTypeForValType b.type).isNone)) ha)
    simp only [ISFDoc.varDeclsForDoc, if_true]
    exact List.mem_cons_of_mem _
      (List.mem_append_right _ (List.mem_append_right _ hm))
  · cases ty <;> simp_all [isImageInputType, glslTypeForValType]

/-- Witness for C6 at the concrete demo document: the float input is
not declared as an individual uniform but as a block member, while the
image input and the image import are declared as individual sampler
uniforms. -/
theorem C6_witness :
    VarDecl.uniformDecl "float" "brightness" ∉
        demoDoc.varDeclsForDoc SamplerType.two true ∧
    VarDecl.blockMember "float" "brightness" ∈
        demoDoc.varDeclsForDoc SamplerType.two true ∧
    VarDecl.uniformDecl "sampler2D" "inputImage" ∈
        demoDoc.varDeclsForDoc SamplerType.two true ∧
    VarDecl.uniformDecl "sampler2D" "lookupTable" ∈
        demoDoc.varDeclsForDoc SamplerType.two true :=
  ⟨((C6_uniform_block_packing demoDoc SamplerType.two).1 brightnessAttr
      (by decide) "float" rfl).1,
    ((C6_uniform_block_packing demoDoc SamplerType.two).1 brightnessAttr
      (by decide) "float" rfl).2,
    (C6_uniform_block_packing demoDoc SamplerType.two).2.1 imgAttr
      (by decide) rfl,
    (C6_uniform_block_packing demoDoc SamplerType.two).2.2.1 importAttr
      (by decide)⟩

end VVISF
